import Mathlib

/-!
Verification of the mvfst QUIC crypto factory
(`quic/handshake/FizzCryptoFactory.cpp`).

The file shallowly embeds the crypto-factory orchestration code: byte
buffers are `List Nat`, the external fizz key-derivation and AEAD
primitives are abstract function fields of a `FizzCryptoFactory`
structure (the C++ class exposes them as the virtual members
`makeKeyDeriver` and `makeAead`), and the record-layer adapters are pure
functions on buffers.
-/

namespace Mvfst

/-- A byte buffer (`folly::IOBuf` / `folly::ByteRange` contents). -/
abbrev Bytes := List Nat

/-- `fizz::CipherSuite` (external fizz enumeration; the values that
appear in fizz's `Types.h`). -/
inductive CipherSuite where
  | TLS_AES_128_GCM_SHA256
  | TLS_AES_256_GCM_SHA384
  | TLS_CHACHA20_POLY1305_SHA256
  | TLS_AES_128_OCB_SHA256
deriving DecidableEq, Repr

/-- `fizz::ContentType` (external fizz enumeration; only the
constructors the adapters touch matter here). -/
inductive ContentType where
  | handshake
  | alert
  | application_data
deriving DecidableEq, Repr

/-- `fizz::EncryptionLevel` (external fizz enumeration). -/
inductive EncryptionLevel where
  | Plaintext
  | Handshake
  | EarlyData
  | AppTraffic
deriving DecidableEq, Repr

/-- `fizz::TLSMessage`: a content type together with the fragment
bytes. -/
structure TLSMessage where
  type : ContentType
  fragment : Bytes
deriving DecidableEq, Repr

/-- `fizz::TLSContent`: output of the write record layers. -/
structure TLSContent where
  data : Bytes
  contentType : ContentType
  encryptionLevel : EncryptionLevel
deriving DecidableEq, Repr

/-- `QuicPlaintextReadRecordLayer::read` (FizzCryptoFactory.cpp lines
21-29).  The C++ takes an `folly::IOBufQueue&`; we model the queue as the
byte list it holds and return, next to the optional message, the bytes
left in the queue after the call (`buf.move()` empties the queue). -/
def QuicPlaintextReadRecordLayer.read (buf : Bytes) : Option TLSMessage × Bytes :=
  if buf.isEmpty then
    (none, buf)
  else
    (some { type := ContentType.handshake, fragment := buf }, [])

/-- `QuicEncryptedReadRecordLayer::read` (FizzCryptoFactory.cpp lines
39-47).  The class is constructed with an encryption level, which it
passes to the fizz base class; the `read` body never consults it. -/
def QuicEncryptedReadRecordLayer.read (level : EncryptionLevel) (buf : Bytes) :
    Option TLSMessage × Bytes :=
  if buf.isEmpty then
    (none, buf)
  else
    (some { type := ContentType.handshake, fragment := buf }, [])

/-- `QuicPlaintextWriteRecordLayer::write` (FizzCryptoFactory.cpp lines
54-60).  `getEncryptionLevel()` on the fizz plaintext write base class
returns `EncryptionLevel::Plaintext`. -/
def QuicPlaintextWriteRecordLayer.write (msg : TLSMessage) : TLSContent :=
  { data := msg.fragment
    contentType := msg.type
    encryptionLevel := EncryptionLevel.Plaintext }

/-- `QuicPlaintextWriteRecordLayer::writeInitialClientHello`
(FizzCryptoFactory.cpp lines 62-66). -/
def QuicPlaintextWriteRecordLayer.writeInitialClientHello (encodedClientHello : Bytes) :
    TLSContent :=
  QuicPlaintextWriteRecordLayer.write
    { type := ContentType.handshake, fragment := encodedClientHello }

/-- `QuicEncryptedWriteRecordLayer::write` (FizzCryptoFactory.cpp lines
76-82).  The class is constructed with an encryption level and
`getEncryptionLevel()` returns exactly that level. -/
def QuicEncryptedWriteRecordLayer.write (level : EncryptionLevel) (msg : TLSMessage) :
    TLSContent :=
  { data := msg.fragment
    contentType := msg.type
    encryptionLevel := level }

/-- Modelled from the spec: the protocol-version tag is an enumerated
32-bit value received from the wire (`quic::QuicVersion`, declared in
`QuicConstants.h`, which is outside the provided sources); unrecognized
values are representable, so we model the tag as a natural number with
named constants for the recognized versions.  The concrete numbers only
need to be pairwise distinct. -/
abbrev QuicVersion := Nat

namespace QuicVersion

/-- The old MVFST version tag. -/
def MVFST_OLD : QuicVersion := 0xfaceb000

/-- The stable MVFST version tag. -/
def MVFST : QuicVersion := 0xfaceb002

/-- The QUIC draft-22 version tag. -/
def QUIC_DRAFT_22 : QuicVersion := 0xff000016

/-- The current QUIC draft version tag. -/
def QUIC_DRAFT : QuicVersion := 0xff000017

end QuicVersion

/-- The four version tags the salt switch in
`makeInitialTrafficSecret` recognizes (its four non-default `case`
labels). -/
def recognizedVersions : List QuicVersion :=
  [QuicVersion.MVFST_OLD, QuicVersion.MVFST,
   QuicVersion.QUIC_DRAFT_22, QuicVersion.QUIC_DRAFT]

/-- Modelled from the spec: the version-to-salt table's constant for
QUIC draft-17 (`kQuicDraft17Salt` in `HandshakeLayer.h`, which is
outside the provided sources).  The bytes are the draft-17 initial
salt; for the claims only its distinctness from the other salts
matters. -/
def kQuicDraft17Salt : Bytes :=
  [0xef, 0x4f, 0xb0, 0xab, 0xb4, 0x74, 0x70, 0xc4, 0x1b, 0xef,
   0xcf, 0x80, 0x31, 0x33, 0x4f, 0xae, 0x48, 0x5e, 0x09, 0xa0]

/-- Modelled from the spec: the version-to-salt table's constant for
QUIC draft-22 (`kQuicDraft22Salt` in `HandshakeLayer.h`, outside the
provided sources). -/
def kQuicDraft22Salt : Bytes :=
  [0x7f, 0xbc, 0xdb, 0x0e, 0x7c, 0x66, 0xbb, 0xe9, 0x19, 0x3a,
   0x96, 0xcd, 0x21, 0x51, 0x9e, 0xbd, 0x7a, 0x02, 0x64, 0x4a]

/-- Modelled from the spec: the version-to-salt table's constant for
QUIC draft-23 (`kQuicDraft23Salt` in `HandshakeLayer.h`, outside the
provided sources). -/
def kQuicDraft23Salt : Bytes :=
  [0xc3, 0xee, 0xf7, 0x12, 0xc7, 0x2e, 0xbb, 0x5a, 0x11, 0xa7,
   0xd2, 0x43, 0x2b, 0xb4, 0x63, 0x65, 0xbe, 0xf9, 0xf5, 0x02]

/-- The fixed key-material label `"quic key"` (`kQuicKeyLabel`). -/
def kQuicKeyLabel : String := "quic key"

/-- The fixed key-material label `"quic iv"` (`kQuicIVLabel`). -/
def kQuicIVLabel : String := "quic iv"

/-- The fixed header-protection label `"quic hp"` (`kQuicPNLabel`). -/
def kQuicPNLabel : String := "quic hp"

/-- `fizz::Sha256::HashLen`: the SHA-256 output length in bytes
(external fizz constant). -/
def Sha256HashLen : Nat := 32

/-- The external fizz key-derivation capability
(`fizz::KeyDerivation`): HKDF-Extract and HKDF-Expand-Label over byte
buffers.  `hkdfExtract salt ikm` and
`expandLabel secret label context outputLength` are abstract pure
functions supplied by the primitive library. -/
structure KeyDeriver where
  hkdfExtract : Bytes → Bytes → Bytes
  expandLabel : Bytes → String → Bytes → Nat → Bytes

/-- The external fizz AEAD capability (`fizz::Aead`): carries the suite
it was constructed for, its key and iv lengths, and the installed
traffic key (`none` until `setKey`). -/
structure AeadInst where
  suite : CipherSuite
  keyLength : Nat
  ivLength : Nat
  trafficKey : Option (Bytes × Bytes)

/-- `fizz::Aead::setKey`: installs a `fizz::TrafficKey` (key, iv). -/
def AeadInst.setKey (a : AeadInst) (k : Bytes × Bytes) : AeadInst :=
  { a with trafficKey := some k }

/-- `quic::FizzAead`: the transport-facing wrapper around a fizz AEAD
(`FizzAead::wrap`). -/
structure FizzAead where
  aead : AeadInst

/-- `FizzAead::wrap`. -/
def FizzAead.wrap (a : AeadInst) : FizzAead := ⟨a⟩

/-- `quic::FizzCryptoFactory`: its virtual members `makeKeyDeriver` and
`makeAead` construct the external fizz primitives for a cipher suite;
they are abstract fields here. -/
structure FizzCryptoFactory where
  makeKeyDeriver : CipherSuite → KeyDeriver
  makeAead : CipherSuite → AeadInst

/-- `FizzCryptoFactory::makeInitialTrafficSecret` (FizzCryptoFactory.cpp
lines 89-118): select the salt by version with `kQuicDraft17Salt` as
the default, HKDF-Extract the connection id with that salt, then
HKDF-Expand-Label with the direction label, an empty context
(`folly::IOBuf::create(0)`) and SHA-256's hash length. -/
def FizzCryptoFactory.makeInitialTrafficSecret (F : FizzCryptoFactory)
    (label : String) (clientDestinationConnId : Bytes) (version : QuicVersion) : Bytes :=
  let deriver := F.makeKeyDeriver CipherSuite.TLS_AES_128_GCM_SHA256
  let salt :=
    if version = QuicVersion.MVFST_OLD then kQuicDraft17Salt
    else if version = QuicVersion.MVFST ∨ version = QuicVersion.QUIC_DRAFT_22 then
      kQuicDraft22Salt
    else if version = QuicVersion.QUIC_DRAFT then kQuicDraft23Salt
    else kQuicDraft17Salt
  let initialSecret := deriver.hkdfExtract salt clientDestinationConnId
  deriver.expandLabel initialSecret label [] Sha256HashLen

/-- The version-to-salt selection of `makeInitialTrafficSecret`'s
`switch` statement, as a standalone table for stating claims. -/
def initialSalt (version : QuicVersion) : Bytes :=
  if version = QuicVersion.MVFST_OLD then kQuicDraft17Salt
  else if version = QuicVersion.MVFST ∨ version = QuicVersion.QUIC_DRAFT_22 then
    kQuicDraft22Salt
  else if version = QuicVersion.QUIC_DRAFT then kQuicDraft23Salt
  else kQuicDraft17Salt

/-- `FizzCryptoFactory::makeInitialAead` (FizzCryptoFactory.cpp lines
120-142): derive the initial traffic secret, expand key and iv with the
fixed labels and the AEAD's own lengths, install them, and wrap. -/
def FizzCryptoFactory.makeInitialAead (F : FizzCryptoFactory)
    (label : String) (clientDestinationConnId : Bytes) (version : QuicVersion) : FizzAead :=
  let trafficSecret := F.makeInitialTrafficSecret label clientDestinationConnId version
  let deriver := F.makeKeyDeriver CipherSuite.TLS_AES_128_GCM_SHA256
  let aead := F.makeAead CipherSuite.TLS_AES_128_GCM_SHA256
  let key := deriver.expandLabel trafficSecret kQuicKeyLabel [] aead.keyLength
  let iv := deriver.expandLabel trafficSecret kQuicIVLabel [] aead.ivLength
  FizzAead.wrap (aead.setKey (key, iv))

/-- The two packet-number-cipher variants (`Aes128PacketNumberCipher`
and `Aes256PacketNumberCipher` in `FizzPacketNumberCipher.h`). -/
inductive PnCipherVariant where
  | aes128
  | aes256
deriving DecidableEq, Repr

/-- Modelled from the spec: the key length of each packet-number-cipher
variant (`keyLength()` of the ciphers in `FizzPacketNumberCipher.h`,
outside the provided sources): 16 bytes for the AES-128 variant and 32
bytes for the AES-256 variant, per the spec's "sized per cipher
suite". -/
def PnCipherVariant.keyLength : PnCipherVariant → Nat
  | .aes128 => 16
  | .aes256 => 32

/-- `quic::PacketNumberCipher`: a variant together with the installed
header-protection key (`none` until `setKey`). -/
structure PacketNumberCipher where
  variant : PnCipherVariant
  key : Option Bytes
deriving DecidableEq, Repr

/-- `PacketNumberCipher::keyLength`. -/
def PacketNumberCipher.keyLength (c : PacketNumberCipher) : Nat :=
  c.variant.keyLength

/-- `PacketNumberCipher::setKey`. -/
def PacketNumberCipher.setKey (c : PacketNumberCipher) (k : Bytes) : PacketNumberCipher :=
  { c with key := some k }

/-- A freshly constructed `Aes128PacketNumberCipher` (no key yet). -/
def Aes128PacketNumberCipher : PacketNumberCipher :=
  { variant := PnCipherVariant.aes128, key := none }

/-- A freshly constructed `Aes256PacketNumberCipher` (no key yet). -/
def Aes256PacketNumberCipher : PacketNumberCipher :=
  { variant := PnCipherVariant.aes256, key := none }

/-- `FizzCryptoFactory::makePacketNumberCipher(fizz::CipherSuite)`
(FizzCryptoFactory.cpp lines 177-187): dispatch on the suite; any
unsupported suite throws `std::runtime_error`, modelled as
`Except.error`. -/
def FizzCryptoFactory.makePacketNumberCipherForSuite (cipher : CipherSuite) :
    Except String PacketNumberCipher :=
  match cipher with
  | CipherSuite.TLS_AES_128_GCM_SHA256 => Except.ok Aes128PacketNumberCipher
  | CipherSuite.TLS_AES_256_GCM_SHA384 => Except.ok Aes256PacketNumberCipher
  | _ => Except.error "Packet number cipher not implemented"

/-- `FizzCryptoFactory::makePacketNumberCipher(folly::ByteRange)`
(FizzCryptoFactory.cpp lines 144-153): construct the cipher for the
fixed 128-bit suite, expand the header-protection key with label
`"quic hp"`, empty context and the cipher's key length, install it. -/
def FizzCryptoFactory.makePacketNumberCipherFromSecret (F : FizzCryptoFactory)
    (baseSecret : Bytes) : Except String PacketNumberCipher := do
  let pnCipher ←
    FizzCryptoFactory.makePacketNumberCipherForSuite CipherSuite.TLS_AES_128_GCM_SHA256
  let deriver := F.makeKeyDeriver CipherSuite.TLS_AES_128_GCM_SHA256
  let pnKey := deriver.expandLabel baseSecret kQuicPNLabel [] pnCipher.keyLength
  return pnCipher.setKey pnKey

/-- A concrete key deriver used to instantiate the abstract primitive
capability in witnesses.  Its extract is injective in the salt for a
fixed ikm and its expand is injective in the secret for fixed label,
context and length, as the real HKDF is assumed to be. -/
def testDeriver : KeyDeriver :=
  { hkdfExtract := fun salt ikm => salt ++ 0xFF :: ikm
    expandLabel := fun secret label _context outputLength =>
      secret ++ [label.length, outputLength] }

/-- A concrete AEAD instance for witnesses, with AES-128-GCM lengths. -/
def testAead (suite : CipherSuite) : AeadInst :=
  { suite := suite, keyLength := 16, ivLength := 12, trafficKey := none }

/-- A concrete factory used to instantiate witnesses. -/
def testFactory : FizzCryptoFactory :=
  { makeKeyDeriver := fun _ => testDeriver
    makeAead := fun suite => testAead suite }

/-- Claim C1: for every direction label, destination connection id and
version, `makeInitialTrafficSecret` returns
`HKDF-Expand-Label(HKDF-Extract(salt(version), dcid), label, empty
context, SHA-256 hash length)`, where `salt(version)` is one of the
known per-version salt constants and any unrecognized version falls
back to the default `kQuicDraft17Salt`.  The embedding is a total pure
function, so determinism and absence of side effects and failure paths
hold by construction. -/
theorem claim_C1 (F : FizzCryptoFactory) (label : String)
    (dcid : Bytes) (v : QuicVersion) :
    F.makeInitialTrafficSecret label dcid v =
      (F.makeKeyDeriver CipherSuite.TLS_AES_128_GCM_SHA256).expandLabel
        ((F.makeKeyDeriver CipherSuite.TLS_AES_128_GCM_SHA256).hkdfExtract
          (initialSalt v) dcid)
        label [] Sha256HashLen
    ∧ (initialSalt v = kQuicDraft17Salt ∨ initialSalt v = kQuicDraft22Salt ∨
        initialSalt v = kQuicDraft23Salt)
    ∧ (v ∉ recognizedVersions → initialSalt v = kQuicDraft17Salt) := by
  refine ⟨rfl, ?_, ?_⟩
  · unfold initialSalt
    split_ifs <;> simp
  · intro hv
    simp only [recognizedVersions, List.mem_cons, List.mem_singleton, not_or] at hv
    obtain ⟨h1, h2, h3, h4, -⟩ := hv
    unfold initialSalt
    rw [if_neg h1, if_neg (by push_neg; exact ⟨h2, h3⟩), if_neg h4]

/-- Witness for C1, applying it at the unrecognized version tag `1`
(distinct from each recognized tag). -/
theorem claim_C1_witness :
    (1 : Mvfst.QuicVersion) ∉ recognizedVersions ∧ initialSalt 1 = kQuicDraft17Salt :=
  ⟨by decide, (claim_C1 testFactory "client in" [] 1).2.2 (by decide)⟩

/-- Claim C9: deriving the initial traffic secret under any
unrecognized version tag does not fail; the salt switch falls back to
`kQuicDraft17Salt`, the same salt as for `MVFST_OLD`, so the resulting
secret equals the one derived under `MVFST_OLD`. -/
theorem claim_C9 (F : FizzCryptoFactory) (label : String) (dcid : Bytes)
    (v : QuicVersion) (hv : v ∉ recognizedVersions) :
    F.makeInitialTrafficSecret label dcid v =
      F.makeInitialTrafficSecret label dcid QuicVersion.MVFST_OLD := by
  simp only [recognizedVersions, List.mem_cons, List.mem_singleton, not_or] at hv
  obtain ⟨h1, h2, h3, h4, -⟩ := hv
  unfold FizzCryptoFactory.makeInitialTrafficSecret
  rw [if_neg h1, if_neg (by push_neg; exact ⟨h2, h3⟩), if_neg h4, if_pos rfl]

/-- Witness for C9 at the version-negotiation tag `0`, which the salt
switch does not recognize. -/
theorem claim_C9_witness :
    testFactory.makeInitialTrafficSecret "server in" [5, 6] 0 =
      testFactory.makeInitialTrafficSecret "server in" [5, 6] QuicVersion.MVFST_OLD :=
  claim_C9 testFactory "server in" [5, 6] 0 (by decide)

/-- Claim C2: `makeInitialAead` derives the initial traffic secret with
the fixed 128-bit AES-GCM/SHA-256 suite, expands key and iv with the
labels `"quic key"` and `"quic iv"`, an empty context and the AEAD's
own key/iv lengths, installs that pair into the AEAD constructed for
that suite, and returns it wrapped in the transport-facing `FizzAead`.
The hypothesis records the primitive library's contract that
`makeAead(s)` yields an AEAD bound to suite `s`. -/
theorem claim_C2 (F : FizzCryptoFactory) (label : String) (dcid : Bytes)
    (v : QuicVersion)
    (hsuite : (F.makeAead CipherSuite.TLS_AES_128_GCM_SHA256).suite =
      CipherSuite.TLS_AES_128_GCM_SHA256) :
    F.makeInitialAead label dcid v =
      FizzAead.wrap
        ((F.makeAead CipherSuite.TLS_AES_128_GCM_SHA256).setKey
          ((F.makeKeyDeriver CipherSuite.TLS_AES_128_GCM_SHA256).expandLabel
              (F.makeInitialTrafficSecret label dcid v) kQuicKeyLabel []
              (F.makeAead CipherSuite.TLS_AES_128_GCM_SHA256).keyLength,
           (F.makeKeyDeriver CipherSuite.TLS_AES_128_GCM_SHA256).expandLabel
              (F.makeInitialTrafficSecret label dcid v) kQuicIVLabel []
              (F.makeAead CipherSuite.TLS_AES_128_GCM_SHA256).ivLength))
    ∧ (F.makeInitialAead label dcid v).aead.suite =
        CipherSuite.TLS_AES_128_GCM_SHA256 := by
  refine ⟨rfl, ?_⟩
  simpa [FizzCryptoFactory.makeInitialAead, FizzAead.wrap, AeadInst.setKey] using hsuite

/-- Witness for C2 on the concrete test factory at the stable MVFST
version. -/
theorem claim_C2_witness :
    testFactory.makeInitialAead "client in" [1, 2, 3] QuicVersion.MVFST =
      FizzAead.wrap
        ((testFactory.makeAead CipherSuite.TLS_AES_128_GCM_SHA256).setKey
          ((testFactory.makeKeyDeriver CipherSuite.TLS_AES_128_GCM_SHA256).expandLabel
              (testFactory.makeInitialTrafficSecret "client in" [1, 2, 3] QuicVersion.MVFST)
              kQuicKeyLabel []
              (testFactory.makeAead CipherSuite.TLS_AES_128_GCM_SHA256).keyLength,
           (testFactory.makeKeyDeriver CipherSuite.TLS_AES_128_GCM_SHA256).expandLabel
              (testFactory.makeInitialTrafficSecret "client in" [1, 2, 3] QuicVersion.MVFST)
              kQuicIVLabel []
              (testFactory.makeAead CipherSuite.TLS_AES_128_GCM_SHA256).ivLength))
    ∧ (testFactory.makeInitialAead "client in" [1, 2, 3] QuicVersion.MVFST).aead.suite =
        CipherSuite.TLS_AES_128_GCM_SHA256 :=
  claim_C2 testFactory "client in" [1, 2, 3] QuicVersion.MVFST rfl

/-- Claim C3: the suite-directed `makePacketNumberCipher` returns the
128-bit-block cipher exactly for `TLS_AES_128_GCM_SHA256`, the
256-bit-block cipher exactly for `TLS_AES_256_GCM_SHA384`, and throws
(not-implemented) for every other suite; it installs no key and does no
cryptographic computation. -/
theorem claim_C3 (s : CipherSuite) :
    (FizzCryptoFactory.makePacketNumberCipherForSuite s =
        Except.ok Aes128PacketNumberCipher ↔ s = CipherSuite.TLS_AES_128_GCM_SHA256)
    ∧ (FizzCryptoFactory.makePacketNumberCipherForSuite s =
        Except.ok Aes256PacketNumberCipher ↔ s = CipherSuite.TLS_AES_256_GCM_SHA384)
    ∧ (s ≠ CipherSuite.TLS_AES_128_GCM_SHA256 →
        s ≠ CipherSuite.TLS_AES_256_GCM_SHA384 →
        FizzCryptoFactory.makePacketNumberCipherForSuite s =
          Except.error "Packet number cipher not implemented") := by
  cases s <;> refine ⟨⟨?_, ?_⟩, ⟨?_, ?_⟩, ?_⟩ <;>
    simp [FizzCryptoFactory.makePacketNumberCipherForSuite,
      Aes128PacketNumberCipher, Aes256PacketNumberCipher]

/-- Witness for C3 at the unsupported ChaCha20-Poly1305 suite. -/
theorem claim_C3_witness :
    FizzCryptoFactory.makePacketNumberCipherForSuite
        CipherSuite.TLS_CHACHA20_POLY1305_SHA256 =
      Except.error "Packet number cipher not implemented" :=
  (claim_C3 CipherSuite.TLS_CHACHA20_POLY1305_SHA256).2.2 (by decide) (by decide)

/-- Claim C4: the secret-directed `makePacketNumberCipher` constructs
the cipher for the fixed 128-bit Initial suite, installs
`HKDF-Expand-Label(baseSecret, "quic hp", empty context, keyLength)`,
and returns the keyed cipher (no failure: the fixed suite is
supported). -/
theorem claim_C4 (F : FizzCryptoFactory) (baseSecret : Bytes) :
    F.makePacketNumberCipherFromSecret baseSecret =
      Except.ok
        { variant := PnCipherVariant.aes128
          key := some ((F.makeKeyDeriver CipherSuite.TLS_AES_128_GCM_SHA256).expandLabel
            baseSecret kQuicPNLabel [] Aes128PacketNumberCipher.keyLength) } :=
  rfl

/-- Claim C6: for both read record layers, reading an empty buffer
yields no message and leaves the buffer untouched, and reading a
non-empty buffer consumes it entirely and yields exactly one
handshake-typed message whose fragment is the whole input. -/
theorem claim_C6 (level : EncryptionLevel) (buf : Bytes) (hne : buf ≠ []) :
    QuicPlaintextReadRecordLayer.read [] = (none, [])
    ∧ QuicEncryptedReadRecordLayer.read level [] = (none, [])
    ∧ QuicPlaintextReadRecordLayer.read buf =
        (some { type := ContentType.handshake, fragment := buf }, [])
    ∧ QuicEncryptedReadRecordLayer.read level buf =
        (some { type := ContentType.handshake, fragment := buf }, []) := by
  refine ⟨rfl, rfl, ?_, ?_⟩ <;>
    simp [QuicPlaintextReadRecordLayer.read, QuicEncryptedReadRecordLayer.read, hne]

/-- Witness for C6 on a one-byte buffer at the handshake level. -/
theorem claim_C6_witness :
    QuicPlaintextReadRecordLayer.read [0x16] =
        (some { type := ContentType.handshake, fragment := [0x16] }, [])
    ∧ QuicEncryptedReadRecordLayer.read EncryptionLevel.Handshake [0x16] =
        (some { type := ContentType.handshake, fragment := [0x16] }, []) :=
  ⟨(claim_C6 EncryptionLevel.Handshake [0x16] (by decide)).2.2.1,
   (claim_C6 EncryptionLevel.Handshake [0x16] (by decide)).2.2.2⟩

/-- Claim C7: both write record layers repackage the message's bytes
unchanged with the message's content type; the plaintext variant tags
the fizz plaintext level and the encrypted variant tags the level it
was constructed with.  No TLS record framing is added. -/
theorem claim_C7 (level : EncryptionLevel) (msg : TLSMessage) :
    QuicPlaintextWriteRecordLayer.write msg =
      { data := msg.fragment
        contentType := msg.type
        encryptionLevel := EncryptionLevel.Plaintext }
    ∧ QuicEncryptedWriteRecordLayer.write level msg =
      { data := msg.fragment
        contentType := msg.type
        encryptionLevel := level } :=
  ⟨rfl, rfl⟩

/-- Claim C8: `writeInitialClientHello b` equals `write` applied to a
handshake-typed message whose fragment is `b`. -/
theorem claim_C8 (b : Bytes) :
    QuicPlaintextWriteRecordLayer.writeInitialClientHello b =
      QuicPlaintextWriteRecordLayer.write
        { type := ContentType.handshake, fragment := b } :=
  rfl

/-- Claim C10: the plaintext and encrypted read record layers implement
extensionally equal read functions, and the encryption level bound to
the encrypted reader has no effect on the result. -/
theorem claim_C10 (l1 l2 : EncryptionLevel) (buf : Bytes) :
    QuicEncryptedReadRecordLayer.read l1 buf = QuicPlaintextReadRecordLayer.read buf
    ∧ QuicEncryptedReadRecordLayer.read l1 buf = QuicEncryptedReadRecordLayer.read l2 buf :=
  ⟨rfl, rfl⟩

/-- The derivation equation of `makeInitialTrafficSecret`, with the
salt switch factored through the `initialSalt` table. -/
theorem makeInitialTrafficSecret_eq (F : FizzCryptoFactory) (label : String)
    (dcid : Bytes) (v : QuicVersion) :
    F.makeInitialTrafficSecret label dcid v =
      (F.makeKeyDeriver CipherSuite.TLS_AES_128_GCM_SHA256).expandLabel
        ((F.makeKeyDeriver CipherSuite.TLS_AES_128_GCM_SHA256).hkdfExtract
          (initialSalt v) dcid)
        label [] Sha256HashLen :=
  rfl

/-- Claim C5: for a fixed (label, connection id), initial traffic
secrets derived under two different recognized versions differ, except
that `MVFST` and `QUIC_DRAFT_22` yield byte-identical secrets because
the salt switch assigns both the draft-22 salt.  Distinctness of the
secrets reduces, through the hypotheses that the external HKDF-Extract
is injective in the salt and HKDF-Expand-Label injective in the secret,
to distinctness of the version salts. -/
theorem claim_C5 (F : FizzCryptoFactory)
    (hext : ∀ ikm : Bytes, Function.Injective fun s =>
      (F.makeKeyDeriver CipherSuite.TLS_AES_128_GCM_SHA256).hkdfExtract s ikm)
    (hexp : ∀ (lab : String) (n : Nat), Function.Injective fun sec =>
      (F.makeKeyDeriver CipherSuite.TLS_AES_128_GCM_SHA256).expandLabel sec lab [] n)
    (label : String) (dcid : Bytes) (v1 v2 : QuicVersion)
    (h1 : v1 ∈ recognizedVersions) (h2 : v2 ∈ recognizedVersions) (hne : v1 ≠ v2)
    (hshare : ¬((v1 = QuicVersion.MVFST ∧ v2 = QuicVersion.QUIC_DRAFT_22) ∨
      (v1 = QuicVersion.QUIC_DRAFT_22 ∧ v2 = QuicVersion.MVFST))) :
    F.makeInitialTrafficSecret label dcid v1 ≠ F.makeInitialTrafficSecret label dcid v2
    ∧ F.makeInitialTrafficSecret label dcid QuicVersion.MVFST =
        F.makeInitialTrafficSecret label dcid QuicVersion.QUIC_DRAFT_22 := by
  constructor
  · intro heq
    rw [makeInitialTrafficSecret_eq F label dcid v1,
      makeInitialTrafficSecret_eq F label dcid v2] at heq
    have hsalt := hext dcid (hexp label Sha256HashLen heq)
    simp only [recognizedVersions, List.mem_cons, List.not_mem_nil, or_false] at h1 h2
    rcases h1 with rfl | rfl | rfl | rfl <;> rcases h2 with rfl | rfl | rfl | rfl <;>
      first
        | exact hne rfl
        | exact hshare (Or.inl ⟨rfl, rfl⟩)
        | exact hshare (Or.inr ⟨rfl, rfl⟩)
        | exact absurd hsalt (by decide)
  · rw [makeInitialTrafficSecret_eq F label dcid QuicVersion.MVFST,
      makeInitialTrafficSecret_eq F label dcid QuicVersion.QUIC_DRAFT_22,
      show initialSalt QuicVersion.MVFST = initialSalt QuicVersion.QUIC_DRAFT_22 from
        by decide]

/-- Witness for C5: on the concrete test factory (whose extract and
expand are injective in the relevant argument), the secrets for
`MVFST_OLD` and `QUIC_DRAFT` differ while `MVFST` and `QUIC_DRAFT_22`
agree. -/
theorem claim_C5_witness :
    testFactory.makeInitialTrafficSecret "client in" [1] QuicVersion.MVFST_OLD ≠
      testFactory.makeInitialTrafficSecret "client in" [1] QuicVersion.QUIC_DRAFT
    ∧ testFactory.makeInitialTrafficSecret "client in" [1] QuicVersion.MVFST =
        testFactory.makeInitialTrafficSecret "client in" [1] QuicVersion.QUIC_DRAFT_22 :=
  claim_C5 testFactory
    (fun _ikm _ _ h => List.append_cancel_right h)
    (fun _lab _n _ _ h => List.append_cancel_right h)
    "client in" [1] QuicVersion.MVFST_OLD QuicVersion.QUIC_DRAFT
    (by decide) (by decide) (by decide) (by decide)

end Mvfst
